import Mathlib

/-
Verification of the core data pipeline of the Batch Enrollment Dashboard
(src/dashboard_app.py): the TTL-cached data loader, the normalizer, the
filter engine and the aggregation engine, shallowly embedded in Lean.

Modelling conventions:
  * A pandas DataFrame over the fixed 17-column schema is embedded as a
    `List Row`; a cell that pandas would hold as NaN/NaT is `none`.
  * Dates (`converteddate`, `startdate`) are embedded at day precision as
    `Option Int` (the parsed value of `pd.to_datetime(..., errors='coerce')`).
  * Monetary values are embedded as `Option Rat` (the parsed value of
    `pd.to_numeric(..., errors='coerce')`); the float32 cast on line 144 of
    the source is a memory optimisation that we model exactly over `Rat`.
  * Wall-clock instants (`time.time()`) are embedded as `Int` seconds.
  * `df.copy()` has no observable effect in a pure embedding; where the code
    returns a copy we return the table itself.
  * The category-dtype conversion (source lines 146-153) is a memory
    optimisation with no semantic effect and is not modelled.
  * String columns that no modelled operation reads (`couponcode`,
    `couponid`, `batch_eligibility`, `type_2`, `batchid`) are not carried in
    `Row`; `cellIsNone` treats them as NaN.  A row that pandas would keep
    solely because such a column is non-null has every modelled cell NaN,
    so it satisfies every column-guarded invariant proved below vacuously
    and its absence cannot ease any proved statement.
  * A concatenated table is modelled at two levels: `normalize` /
    `load_data_from_sheets` embed the full-schema case, in which the
    column-presence guards of source lines 132, 141 and 159 are all true;
    `normalizeWithCols` / `load_data_from_sheets_cols` carry the
    concatenated table's column set and model those guards, and
    `normalizeWithCols_fullSchema` / `load_data_from_sheets_cols_fullSchema`
    prove the former are the full-schema specialisations of the latter.
-/

namespace Dashboard

/-- One row of the (concatenated, type-coerced) enrollment table.
Field names follow the source's column names; `rid` stands for the `_id`
column. Every field is optional because every pandas cell can be NaN/NaT. -/
structure Row where
  rid : Option String := none
  name : Option String := none
  plan : Option String := none
  exam_2 : Option String := none
  order_type : Option String := none
  leader_fin : Option String := none
  converteddate : Option Int := none
  startdate : Option Int := none
  net_amount : Option Rat := none
  coupondiscount : Option Rat := none
  donationamount : Option Rat := none
  add_on_store : Option Rat := none
  deriving DecidableEq

abbrev Table := List Row

/-- Source lines 139-144: `pd.to_numeric(df[col], errors='coerce').fillna(0)`
for the four designated numeric columns. The parse itself produced the
`Option Rat` already present in the row; this step is the `fillna(0)`. -/
def coerceNumerics (r : Row) : Row :=
  { r with
    net_amount := some (r.net_amount.getD 0)
    coupondiscount := some (r.coupondiscount.getD 0)
    donationamount := some (r.donationamount.getD 0)
    add_on_store := some (r.add_on_store.getD 0) }

/-- A row all of whose cells are NaN (`dropna(how='all')` drops exactly
these, source line 156). -/
def allNone (r : Row) : Bool :=
  r.rid.isNone && r.name.isNone && r.plan.isNone && r.exam_2.isNone &&
  r.order_type.isNone && r.leader_fin.isNone && r.converteddate.isNone &&
  r.startdate.isNone && r.net_amount.isNone && r.coupondiscount.isNone &&
  r.donationamount.isNone && r.add_on_store.isNone

/-- Source lines 131-163 applied to a concatenated table carrying the full
17-column schema: numeric coercion (`fillna(0)`), then `dropna(how='all')`,
then removal of the rows whose `converteddate` failed to parse
(`df[df['converteddate'].notna()]`).  On the full schema the
column-presence guards of lines 141 and 159 are all true;
`normalizeWithCols` below models the guards in the general case and
`normalizeWithCols_fullSchema` proves this function is its full-schema
specialisation. -/
def normalize (rows : List Row) : Table :=
  ((rows.map coerceNumerics).filter (fun r => !(allNone r))).filter
    (fun r => r.converteddate.isSome)

/-- The fixed empty-schema table returned when nothing usable was loaded
(source lines 120-125, 168-173, 194-199); with columns not modelled it is
the empty list of rows. -/
def emptySchemaTable : Table := []

/-- The constant `CACHE_DURATION = 300` (source line 34). -/
def CACHE_DURATION : Int := 300

/-- The loader's global mutable state: `DATA_CACHE` and `CACHE_TIMESTAMP`
(source lines 32-33), both `None` at process start. -/
structure CacheState where
  dataCache : Option Table
  cacheTimestamp : Option Int
  deriving DecidableEq

/-- Outcome of the fallible part of a load attempt (the `try` block):
either some exception is raised (auth failure, spreadsheet open failure,
...), or each worksheet either contributed a raw table or was skipped, and
`sheets` carries the per-sheet tables that did load (post header detection,
column reconciliation and type parsing). -/
inductive FetchOutcome where
  | raises : FetchOutcome
  | sheets : List Table → FetchOutcome

/-- The cache-hit test of source lines 64-68: serve the cache iff
`not force_refresh and DATA_CACHE is not None and CACHE_TIMESTAMP is not
None and (current_time - CACHE_TIMESTAMP) < CACHE_DURATION`. -/
def cacheHit (st : CacheState) (now : Int) (forceRefresh : Bool) : Bool :=
  !forceRefresh && st.dataCache.isSome &&
    (match st.cacheTimestamp with
     | some ts => decide (now - ts < CACHE_DURATION)
     | none => false)

/-- The loader `load_data_from_sheets` (source lines 59-199) as a state transformer:
given the global cache state, the current wall-clock time, the
`force_refresh` flag and the outcome of the fallible fetch, it returns the
new cache state, the returned table, and whether an underlying fetch was
attempted.  Branches, in source order: cache hit (66-68); exception during
the try block (190-199); zero sheets loaded (118-125); empty table after
normalization (166-173); success, which writes `DATA_CACHE` and
`CACHE_TIMESTAMP` (175-177) and returns the fresh table (188). -/
def load_data_from_sheets (st : CacheState) (now : Int) (forceRefresh : Bool)
    (outcome : FetchOutcome) : CacheState × Table × Bool :=
  if cacheHit st now forceRefresh then
    (st, st.dataCache.getD emptySchemaTable, false)
  else
    match outcome with
    | .raises => (st, emptySchemaTable, true)
    | .sheets dfs =>
      if dfs.isEmpty then (st, emptySchemaTable, true)
      else
        let df := normalize dfs.flatten
        if df.isEmpty then (st, emptySchemaTable, true)
        else ({ dataCache := some df, cacheTimestamp := some now }, df, true)

/-- One loaded sheet (or a concatenated table) together with its column
set, as consulted by the presence guards `if col in df.columns` of source
lines 132, 135, 141 and 159: pandas `concat` takes the union of the
per-sheet columns, so a column can be absent when no loaded sheet
provided it. -/
structure Frame where
  cols : List String
  rows : List Row
  deriving DecidableEq

/-- The 17 columns of the fixed schema (source lines 120-125). -/
def fullSchemaCols : List String :=
  ["_id", "batchid", "plan", "converteddate", "name", "net_amount",
   "coupondiscount", "couponcode", "couponid", "donationamount",
   "Exam_2", "order_type", "batch_eligibility", "startdate", "ADD_ON_STORE",
   "leader_fin", "type_2"]

/-- Whether the cell of row `r` in column `c` is NaN.  The five schema
columns not carried in `Row` (`batchid`, `couponcode`, `couponid`,
`batch_eligibility`, `type_2`) are treated as NaN: a row that pandas would
keep solely because such a column is non-null has every modelled cell NaN
and satisfies each column-guarded invariant below vacuously, so treating
those cells as NaN cannot ease any proved statement. -/
def cellIsNone (r : Row) (c : String) : Bool :=
  if c = "_id" then r.rid.isNone
  else if c = "name" then r.name.isNone
  else if c = "plan" then r.plan.isNone
  else if c = "Exam_2" then r.exam_2.isNone
  else if c = "order_type" then r.order_type.isNone
  else if c = "leader_fin" then r.leader_fin.isNone
  else if c = "converteddate" then r.converteddate.isNone
  else if c = "startdate" then r.startdate.isNone
  else if c = "net_amount" then r.net_amount.isNone
  else if c = "coupondiscount" then r.coupondiscount.isNone
  else if c = "donationamount" then r.donationamount.isNone
  else if c = "ADD_ON_STORE" then r.add_on_store.isNone
  else true

/-- A row all of whose cells in the table's actual columns are NaN:
`dropna(how='all')` (source line 156) drops exactly these. -/
def allNoneOn (cols : List String) (r : Row) : Bool :=
  cols.all (fun c => cellIsNone r c)

/-- Source lines 139-144 with their column-presence guards: each of the
four designated numeric columns is `fillna(0)`-coerced only when the
concatenated table has that column (`if col in df.columns`, line 141). -/
def coerceNumericsOn (cols : List String) (r : Row) : Row :=
  { r with
    net_amount :=
      if cols.contains "net_amount" then some (r.net_amount.getD 0)
      else r.net_amount
    coupondiscount :=
      if cols.contains "coupondiscount" then some (r.coupondiscount.getD 0)
      else r.coupondiscount
    donationamount :=
      if cols.contains "donationamount" then some (r.donationamount.getD 0)
      else r.donationamount
    add_on_store :=
      if cols.contains "ADD_ON_STORE" then some (r.add_on_store.getD 0)
      else r.add_on_store }

/-- Source lines 131-163 in the general case: guarded numeric coercion,
`dropna(how='all')` over the table's actual columns, and the null-date row
removal only when the table has a `converteddate` column at all
(`if 'converteddate' in df.columns`, line 159).  When the column is
absent, the date-less rows are kept. -/
def normalizeWithCols (cols : List String) (rows : List Row) : List Row :=
  let kept := (rows.map (coerceNumericsOn cols)).filter
    (fun r => !(allNoneOn cols r))
  if cols.contains "converteddate" then
    kept.filter (fun r => r.converteddate.isSome)
  else kept

/-- Column union of the loaded sheets, as produced by `pd.concat`
(source line 127). -/
def concatCols (fs : List Frame) : List String :=
  ((fs.map Frame.cols).flatten).dedup

/-- Fetch outcome carrying, for each sheet that loaded, its column set
alongside its rows. -/
inductive FrameOutcome where
  | raises : FrameOutcome
  | sheets : List Frame → FrameOutcome

/-- The loader of source lines 59-199 once more, now carrying the
concatenated table's column set so that the guards of lines 141 and 159
are modelled.  `load_data_from_sheets` above is its specialisation to
full-schema tables (`load_data_from_sheets_cols_fullSchema`); the branch
structure (cache hit, raise, no sheets, empty result, success writing the
cache at lines 175-177) is identical. -/
def load_data_from_sheets_cols (st : CacheState) (now : Int)
    (forceRefresh : Bool) (outcome : FrameOutcome) :
    CacheState × Table × Bool :=
  if cacheHit st now forceRefresh then
    (st, st.dataCache.getD emptySchemaTable, false)
  else
    match outcome with
    | .raises => (st, emptySchemaTable, true)
    | .sheets fs =>
      if fs.isEmpty then (st, emptySchemaTable, true)
      else
        let df := normalizeWithCols (concatCols fs) (fs.map Frame.rows).flatten
        if df.isEmpty then (st, emptySchemaTable, true)
        else ({ dataCache := some df, cacheTimestamp := some now }, df, true)

/-- The transient filter selection handed to `update_dashboard`: a date
range plus the three checklist values (empty list = no restriction). -/
structure Selection where
  start_date : Int
  end_date : Int
  batch_filter : List String
  exam_filter : List String
  plan_filter : List String
  deriving DecidableEq

/-- The date-range predicate of source lines 694-695:
`(converteddate >= start_date) & (converteddate <= end_date)`, inclusive on
both bounds; a NaT date compares false in pandas. -/
def dateOk (s : Selection) (r : Row) : Bool :=
  match r.converteddate with
  | some d => decide (s.start_date ≤ d) && decide (d ≤ s.end_date)
  | none => false

/-- The set-membership predicate `column.isin(sel)` of source lines
699/703/707; a NaN cell is never a member. -/
def memOk (sel : List String) (v : Option String) : Bool :=
  match v with
  | some x => sel.contains x
  | none => false

/-- The filter pipeline of `update_dashboard`, source lines 690-707: date
range always (the schema always has `converteddate`), then each checklist
dimension only when its selection list is non-empty. -/
def applyFilter (T : Table) (s : Selection) : Table :=
  let t1 := T.filter (fun r => dateOk s r)
  let t2 := if s.batch_filter.isEmpty then t1
            else t1.filter (fun r => memOk s.batch_filter r.name)
  let t3 := if s.exam_filter.isEmpty then t2
            else t2.filter (fun r => memOk s.exam_filter r.exam_2)
  if s.plan_filter.isEmpty then t3
  else t3.filter (fun r => memOk s.plan_filter r.plan)

/-- Source line 711: `filtered_df[filtered_df['converteddate'] >=
(pd.Timestamp(end_date) - pd.Timedelta(days=7))]` — the recent-window
restriction, a lower bound only (the upper bound `<= end_date` was already
enforced by the date-range filter). -/
def last7 (T : Table) (end_date : Int) : Table :=
  T.filter (fun r =>
    match r.converteddate with
    | some d => decide (end_date - 7 ≤ d)
    | none => false)

/-- The group keys produced by `groupby('converteddate')`: the distinct
non-NaT dates, in ascending order (pandas groupby sorts its keys). -/
def sortedDates (T : Table) : List Int :=
  ((T.filterMap Row.converteddate).dedup).insertionSort (· ≤ ·)

/-- Source line 772: `last_7_days_df.groupby('converteddate').size()` — one
(date, row count) pair per observed date, dates ascending. -/
def last7Trend (T : Table) (end_date : Int) : List (Int × Nat) :=
  let L := last7 T end_date
  (sortedDates L).map
    (fun d => (d, L.countP (fun r => decide (r.converteddate = some d))))

/-- Raw (unscaled) revenue of the rows bearing a given date. -/
def revenueOnDate (T : Table) (d : Int) : Rat :=
  ((T.filter (fun r => decide (r.converteddate = some d))).map
    (fun r => r.net_amount.getD 0)).sum

/-- Source lines 815-816: group the recent window by date, sum
`net_amount`, then divide the summed column by 10,000,000 (Crores). -/
def revenueTrendCr (T : Table) (end_date : Int) : List (Int × Rat) :=
  let L := last7 T end_date
  (sortedDates L).map (fun d => (d, revenueOnDate L d / 10000000))

/-- Raw (unscaled) revenue of the rows bearing a given exam category. -/
def revenueOfExam (T : Table) (e : String) : Rat :=
  ((T.filter (fun r => decide (r.exam_2 = some e))).map
    (fun r => r.net_amount.getD 0)).sum

/-- Source lines 879-880: `groupby('Exam_2')['net_amount'].sum()
.sort_values(ascending=False).head(10)` then division by 10,000,000.
Group keys are the distinct non-NaN exam categories. -/
def revenueByExamCr (T : Table) : List (String × Rat) :=
  let pairs := ((T.filterMap Row.exam_2).dedup).map
    (fun e => (e, revenueOfExam T e))
  let sorted := pairs.insertionSort (fun a b => b.2 ≤ a.2)
  (sorted.take 10).map (fun p => (p.1, p.2 / 10000000))

/-- Source line 714: `filtered_df['net_amount'].sum()`. -/
def total_revenue (T : Table) : Rat := (T.map (fun r => r.net_amount.getD 0)).sum

/-- Source line 717: `total_revenue / 10000000`. -/
def total_revenue_cr (T : Table) : Rat := total_revenue T / 10000000

/-- One row of the per-batch summary built by `export_table` (source lines
1132-1177): group key, row count, first non-null exam category, summed
revenue scaled to Crores (line 1171), PRIMARY/UPGRADE order counts (lines
1153-1159), first non-null leader. -/
structure SummaryRow where
  batchName : String
  totalEnrollments : Nat
  examCategory : Option String
  totalRevenueCr : Rat
  primaryOrders : Nat
  upgradeOrders : Nat
  leader : Option String
  deriving DecidableEq

/-- The group keys of `groupby('name')`: distinct non-NaN batch names
(pandas drops NaN group keys). Key order does not affect any property
proved below, so the first-occurrence order of `dedup` is kept. -/
def batchKeys (T : Table) : List String := (T.filterMap Row.name).dedup

/-- Raw (unscaled) revenue of the rows bearing a given batch name. -/
def revenueOfBatch (T : Table) (n : String) : Rat :=
  ((T.filter (fun r => decide (r.name = some n))).map
    (fun r => r.net_amount.getD 0)).sum

/-- The summary row of one batch group (pandas `agg` with `'first'`
returning the first non-NA value of the group). -/
def summaryRowFor (T : Table) (n : String) : SummaryRow :=
  { batchName := n
    totalEnrollments := T.countP (fun r => decide (r.name = some n))
    examCategory := ((T.filter (fun r => decide (r.name = some n))).filterMap
      Row.exam_2).head?
    totalRevenueCr := revenueOfBatch T n / 10000000
    primaryOrders := T.countP
      (fun r => decide (r.name = some n) && decide (r.order_type = some "PRIMARY"))
    upgradeOrders := T.countP
      (fun r => decide (r.name = some n) && decide (r.order_type = some "UPGRADE"))
    leader := ((T.filter (fun r => decide (r.name = some n))).filterMap
      Row.leader_fin).head? }

/-- The batch-summary body: one row per batch, sorted descending by
enrollment count (source line 1180). -/
def batchSummaryRows (T : Table) : List SummaryRow :=
  ((batchKeys T).map (summaryRowFor T)).insertionSort
    (fun a b => b.totalEnrollments ≤ a.totalEnrollments)

/-- The synthetic trailing totals row appended by `export_table` (source
lines 1183-1199): the identifying column holds the fixed label `TOTAL`,
summable columns hold column-wise sums over the summary rows, and the
non-summable columns (exam category, leader) are left blank. -/
structure TotalsRow where
  batchName : String
  totalEnrollments : Nat
  examCategory : String
  totalRevenueCr : Rat
  primaryOrders : Nat
  upgradeOrders : Nat
  leader : String
  deriving DecidableEq

/-- Totals row of the batch summary (source lines 1183-1196). -/
def batchSummaryTotals (T : Table) : TotalsRow :=
  let rows := batchSummaryRows T
  { batchName := "TOTAL"
    totalEnrollments := (rows.map (fun s => s.totalEnrollments)).sum
    examCategory := ""
    totalRevenueCr := (rows.map (fun s => s.totalRevenueCr)).sum
    primaryOrders := (rows.map (fun s => s.primaryOrders)).sum
    upgradeOrders := (rows.map (fun s => s.upgradeOrders)).sum
    leader := "" }

/-- The keyword list of source line 91. -/
def headerKeywords : List String := ["batchid", "_id", "name", "converteddate"]

/-- Python's `str(row)` for a list of strings (source line 91), without the
escaping of quotes/backslashes inside cells, which cannot create or destroy
an occurrence of any of the four keywords (they consist of letters and an
underscore only). -/
def rowText (row : List String) : String :=
  "[" ++ String.intercalate ", " (row.map (fun c => "'" ++ c ++ "'")) ++ "]"

/-- Contiguous-substring test on character lists (Python's `in` on str). -/
def substrOccurs (needle : List Char) : List Char → Bool
  | [] => needle.isEmpty
  | c :: rest => needle.isPrefixOf (c :: rest) || substrOccurs needle rest

/-- The header test of source line 91:
`row and any(col in str(row).lower() for col in [...])`. -/
def rowHasKeyword (row : List String) : Bool :=
  !row.isEmpty && headerKeywords.any
    (fun kw => substrOccurs kw.data ((rowText row).data.map Char.toLower))

/-- The scan of source lines 89-94: index of the first row passing the
header test, `none` when no row passes (the loop's `break`). -/
def findFirstMatch : List (List String) → Option Nat
  | [] => none
  | row :: rest =>
    if rowHasKeyword row then some 0 else (findFirstMatch rest).map (· + 1)

/-- The value `header_row`: the scan's result, 0 when no row matched (the variable's
initial value, source line 89). -/
def findHeaderRow (data : List (List String)) : Nat :=
  (findFirstMatch data).getD 0

/-- The slice `data[header_row]`, the row used as the column header (source line 97). -/
def sheetHeader (data : List (List String)) : Option (List String) :=
  data[findHeaderRow data]?

/-- The slice `data[header_row + 1:]`, the rows that become the sheet's data rows
(source line 97): everything above the header is discarded. -/
def sheetDataRows (data : List (List String)) : List (List String) :=
  data.drop (findHeaderRow data + 1)

/-- Combined selection, following the composition claim's words: the date
ranges are intersected (larger lower bound, smaller upper bound); for each
checklist dimension the two sets are intersected when both restrict, and a
dimension left empty by one selection contributes no restriction. -/
def combineSets (a b : List String) : List String :=
  if a.isEmpty then b else if b.isEmpty then a else a.inter b

/-- Combined selection (see `combineSets`). -/
def combineSelections (s1 s2 : Selection) : Selection :=
  { start_date := max s1.start_date s2.start_date
    end_date := min s1.end_date s2.end_date
    batch_filter := combineSets s1.batch_filter s2.batch_filter
    exam_filter := combineSets s1.exam_filter s2.exam_filter
    plan_filter := combineSets s1.plan_filter s2.plan_filter }

/-- A sample normalized row, used in concrete instantiations below. -/
def sampleRow : Row :=
  { name := some "A", converteddate := some 0, net_amount := some 100,
    coupondiscount := some 0, donationamount := some 0, add_on_store := some 0 }

/-- A sample normalized row with a NaN batch name. -/
def sampleRowNoName : Row :=
  { name := none, converteddate := some 0, net_amount := some 50,
    coupondiscount := some 0, donationamount := some 0, add_on_store := some 0 }

/-- C1 counterexample: in the WARM state holding table `[sampleRow]` with
fetch timestamp 0, a load at time 300 (cache expired) whose fetch raises
returns the fixed empty-schema table — not the previously cached table,
which is left in the cache but not served. -/
theorem c1_counterexample :
    load_data_from_sheets ⟨some [sampleRow], some 0⟩ 300 false .raises
      = (⟨some [sampleRow], some 0⟩, emptySchemaTable, true)
    ∧ emptySchemaTable ≠ [sampleRow] := by
  refine ⟨rfl, ?_⟩
  decide

/-- C1 (amended): whenever a load attempt actually reaches the fetch (the
cache-hit test fails) and the fetch/normalize raises, the loader returns
the fixed empty-schema table — regardless of whether a previously cached
table exists — and leaves the cache state unchanged. -/
theorem c1_failure_always_returns_empty_schema (st : CacheState) (now : Int)
    (force : Bool) (h : cacheHit st now force = false) :
    load_data_from_sheets st now force .raises = (st, emptySchemaTable, true) := by
  simp [load_data_from_sheets, h]

/-- C1 witness: the amended statement at the concrete WARM-but-expired
state of the counterexample. -/
theorem c1_failure_witness :
    cacheHit ⟨some [sampleRow], some 0⟩ 300 false = false
    ∧ load_data_from_sheets ⟨some [sampleRow], some 0⟩ 300 false .raises
        = (⟨some [sampleRow], some 0⟩, emptySchemaTable, true) :=
  ⟨by decide, c1_failure_always_returns_empty_schema _ _ _ (by decide)⟩

/-- C2: in a WARM cache state, a non-forced load whose elapsed time since
the cached fetch timestamp is strictly below the 300-second window returns
the cached table without fetching, whatever the fetch would have done; and
starting from an EMPTY cache, a successful first load followed by a second
non-forced load inside the window performs exactly one underlying fetch
(the first call fetches, the second does not) and both calls return the
same table. -/
theorem c2_warm_cache_hit_no_fetch :
    (∀ (st : CacheState) (now : Int) (o : FetchOutcome) (T : Table) (ts : Int),
      st.dataCache = some T → st.cacheTimestamp = some ts →
      now - ts < CACHE_DURATION →
      load_data_from_sheets st now false o = (st, T, false))
    ∧ (∀ (st0 st1 : CacheState) (t1 t2 : Int) (dfs : List Table)
        (o2 : FetchOutcome) (T1 : Table) (f1 : Bool),
      st0.dataCache = none →
      load_data_from_sheets st0 t1 false (.sheets dfs) = (st1, T1, f1) →
      dfs ≠ [] → normalize dfs.flatten ≠ [] →
      t2 - t1 < CACHE_DURATION →
      f1 = true ∧ load_data_from_sheets st1 t2 false o2 = (st1, T1, false)) := by
  constructor
  · intro st now o T ts hc hts hlt
    simp [load_data_from_sheets, cacheHit, hc, hts, hlt]
  · intro st0 st1 t1 t2 dfs o2 T1 f1 hnone hload hdfs hnorm hlt
    have hmiss : cacheHit st0 t1 false = false := by
      simp [cacheHit, hnone]
    rw [load_data_from_sheets, if_neg (by simp [hmiss])] at hload
    simp only [List.isEmpty_iff, hdfs, if_false, hnorm] at hload
    simp only [Prod.mk.injEq] at hload
    obtain ⟨hst1, hT1, hf1⟩ := hload
    subst hst1
    subst hT1
    subst hf1
    refine ⟨rfl, ?_⟩
    simp [load_data_from_sheets, cacheHit, hlt]

/-- C2 witness: both parts at concrete inputs — a WARM state served within
the window, and an EMPTY-start pair of calls with one fetch. -/
theorem c2_warm_cache_hit_witness :
    load_data_from_sheets ⟨some [sampleRow], some 0⟩ 299 false .raises
      = (⟨some [sampleRow], some 0⟩, [sampleRow], false)
    ∧ (true = true
      ∧ load_data_from_sheets ⟨some [sampleRow], some 10⟩ 309 false .raises
          = (⟨some [sampleRow], some 10⟩, [sampleRow], false)) := by
  constructor
  · exact c2_warm_cache_hit_no_fetch.1 _ 299 _ [sampleRow] 0 rfl rfl (by decide)
  · exact c2_warm_cache_hit_no_fetch.2 ⟨none, none⟩ _ 10 309 [[sampleRow]] .raises
      [sampleRow] true rfl (by decide) (by decide) (by decide) (by decide)

/-- C10: a load attempt either leaves the cache state exactly as it was
(every failure branch, every empty-result branch and the cache-hit branch),
or it was a fully successful non-empty load, in which case the cache is
replaced wholesale by the freshly normalized table together with the
current timestamp, and that same table is returned. -/
theorem c10_cache_written_only_on_success (st : CacheState) (now : Int)
    (force : Bool) (outcome : FetchOutcome) :
    (load_data_from_sheets st now force outcome).1 = st
    ∨ ∃ dfs, outcome = .sheets dfs ∧ dfs ≠ [] ∧ normalize dfs.flatten ≠ [] ∧
        load_data_from_sheets st now force outcome
          = (⟨some (normalize dfs.flatten), some now⟩, normalize dfs.flatten, true) := by
  cases outcome with
  | raises =>
    left
    by_cases hhit : cacheHit st now force <;> simp [load_data_from_sheets, hhit]
  | sheets dfs =>
    by_cases hhit : cacheHit st now force
    · left
      simp [load_data_from_sheets, hhit]
    · by_cases hdfs : dfs.isEmpty
      · left
        simp [load_data_from_sheets, hhit, hdfs]
      · by_cases hnorm : (normalize dfs.flatten).isEmpty
        · left
          simp [load_data_from_sheets, hhit, hdfs, hnorm]
        · right
          refine ⟨dfs, rfl, by simpa using hdfs, by simpa using hnorm, ?_⟩
          simp [load_data_from_sheets, hhit, hdfs, hnorm]

/-- C6: a selection that leaves every checklist dimension empty and whose
date range contains every row's date filters nothing: `applyFilter` is the
identity on such input. -/
theorem c6_identity_filter (T : Table) (s : Selection)
    (hb : s.batch_filter = []) (he : s.exam_filter = []) (hp : s.plan_filter = [])
    (hd : ∀ r ∈ T, ∃ d, r.converteddate = some d ∧
      s.start_date ≤ d ∧ d ≤ s.end_date) :
    applyFilter T s = T := by
  unfold applyFilter
  simp only [hb, he, hp, List.isEmpty_nil, if_true]
  rw [List.filter_eq_self]
  intro r hr
  obtain ⟨d, hd1, hd2, hd3⟩ := hd r hr
  simp [dateOk, hd1, hd2, hd3]

/-- C6 witness: the identity filter at a concrete one-row table. -/
theorem c6_identity_filter_witness :
    applyFilter [sampleRow] ⟨0, 7, [], [], []⟩ = [sampleRow] :=
  c6_identity_filter _ _ rfl rfl rfl
    (by
      intro r hr
      rw [List.mem_singleton] at hr
      subst hr
      exact ⟨0, rfl, by decide, by decide⟩)

/-- A single boolean row predicate equivalent to the staged filter
pipeline: the conjunction of the date-range predicate and, for each
checklist dimension, "the selection is empty or the row's value belongs to
it". -/
def passes (s : Selection) (r : Row) : Bool :=
  dateOk s r && (s.batch_filter.isEmpty || memOk s.batch_filter r.name)
    && (s.exam_filter.isEmpty || memOk s.exam_filter r.exam_2)
    && (s.plan_filter.isEmpty || memOk s.plan_filter r.plan)

theorem applyFilter_eq_filter_passes (T : Table) (s : Selection) :
    applyFilter T s = T.filter (passes s) := by
  unfold applyFilter passes
  by_cases hb : s.batch_filter.isEmpty <;>
    by_cases he : s.exam_filter.isEmpty <;>
      by_cases hp : s.plan_filter.isEmpty <;>
        simp [hb, he, hp, List.filter_filter, Bool.and_comm, Bool.and_assoc,
          Bool.and_left_comm]

theorem dateOk_combine (s1 s2 : Selection) (r : Row) :
    dateOk (combineSelections s1 s2) r = (dateOk s1 r && dateOk s2 r) := by
  unfold dateOk combineSelections
  cases r.converteddate with
  | none => rfl
  | some d =>
    rw [Bool.eq_iff_iff]
    simp only [Bool.and_eq_true, decide_eq_true_eq, max_le_iff, le_min_iff]
    tauto

theorem memOk_combineSets (a b : List String) (v : Option String)
    (h : a ≠ [] → b ≠ [] → a.inter b ≠ []) :
    ((a.isEmpty || memOk a v) && (b.isEmpty || memOk b v))
      = ((combineSets a b).isEmpty || memOk (combineSets a b) v) := by
  by_cases ha : a.isEmpty
  · have ha' : a = [] := by simpa using ha
    simp [combineSets, ha']
  · by_cases hb : b.isEmpty
    · have hb' : b = [] := by simpa using hb
      have ha'' : ¬ a = [] := by simpa using ha
      simp [combineSets, hb', ha'', Bool.and_comm]
    · have hi : a.inter b ≠ [] := h (by simpa using ha) (by simpa using hb)
      have hae : a.isEmpty = false := by simpa using ha
      have hbe : b.isEmpty = false := by simpa using hb
      have hie : (a.inter b).isEmpty = false := by
        simpa [List.isEmpty_iff] using hi
      rw [combineSets, if_neg (by simp [hae]), if_neg (by simp [hbe]),
        hae, hbe, hie]
      simp only [Bool.false_or]
      cases v with
      | none => rfl
      | some x =>
        rw [Bool.eq_iff_iff]
        simp only [memOk, Bool.and_eq_true, List.contains_iff_exists_mem_beq,
          beq_iff_eq]
        constructor
        · rintro ⟨⟨xa, hxa, hxa'⟩, ⟨xb, hxb, hxb'⟩⟩
          subst hxa'
          exact ⟨x, List.mem_inter_iff.2 ⟨hxa, hxb'.symm ▸ hxb⟩, rfl⟩
        · rintro ⟨xi, hxi, hxi'⟩
          subst hxi'
          have := List.mem_inter_iff.1 hxi
          exact ⟨⟨x, this.1, rfl⟩, ⟨x, this.2, rfl⟩⟩

/-- C7 counterexample: with the one-row table `[sampleRow]` (batch name
`A`), the selection chain batch = {A} then batch = {B} yields the empty
table, while the combined selection's batch set is the empty intersection,
which `applyFilter` treats as "no restriction" and so returns the row. -/
theorem c7_counterexample :
    applyFilter (applyFilter [sampleRow] ⟨0, 7, ["A"], [], []⟩)
        ⟨0, 7, ["B"], [], []⟩
      ≠ applyFilter [sampleRow]
          (combineSelections ⟨0, 7, ["A"], [], []⟩ ⟨0, 7, ["B"], [], []⟩) := by
  decide

/-- C7 (amended): sequential filtering equals filtering by the combined
selection provided that, on each checklist dimension, two non-empty
selection sets never intersect to the empty set (an empty intersection
would be read back by `applyFilter` as "no restriction", flipping its
meaning). -/
theorem c7_filters_compose (T : Table) (s1 s2 : Selection)
    (hb : s1.batch_filter ≠ [] → s2.batch_filter ≠ [] →
      s1.batch_filter.inter s2.batch_filter ≠ [])
    (he : s1.exam_filter ≠ [] → s2.exam_filter ≠ [] →
      s1.exam_filter.inter s2.exam_filter ≠ [])
    (hp : s1.plan_filter ≠ [] → s2.plan_filter ≠ [] →
      s1.plan_filter.inter s2.plan_filter ≠ []) :
    applyFilter (applyFilter T s1) s2
      = applyFilter T (combineSelections s1 s2) := by
  rw [applyFilter_eq_filter_passes, applyFilter_eq_filter_passes,
    applyFilter_eq_filter_passes, List.filter_filter]
  apply List.filter_congr
  intro r _
  unfold passes
  rw [dateOk_combine,
    show (combineSelections s1 s2).batch_filter
      = combineSets s1.batch_filter s2.batch_filter from rfl,
    show (combineSelections s1 s2).exam_filter
      = combineSets s1.exam_filter s2.exam_filter from rfl,
    show (combineSelections s1 s2).plan_filter
      = combineSets s1.plan_filter s2.plan_filter from rfl,
    ← memOk_combineSets _ _ _ hb, ← memOk_combineSets _ _ _ he,
    ← memOk_combineSets _ _ _ hp]
  generalize dateOk s1 r = A
  generalize dateOk s2 r = B
  generalize (s1.batch_filter.isEmpty || memOk s1.batch_filter r.name) = X1
  generalize (s2.batch_filter.isEmpty || memOk s2.batch_filter r.name) = X2
  generalize (s1.exam_filter.isEmpty || memOk s1.exam_filter r.exam_2) = Y1
  generalize (s2.exam_filter.isEmpty || memOk s2.exam_filter r.exam_2) = Y2
  generalize (s1.plan_filter.isEmpty || memOk s1.plan_filter r.plan) = Z1
  generalize (s2.plan_filter.isEmpty || memOk s2.plan_filter r.plan) = Z2
  revert A B X1 X2 Y1 Y2 Z1 Z2
  decide

/-- C7 witness: composition at concrete selections whose batch sets are
non-empty with non-empty intersection. -/
theorem c7_filters_compose_witness :
    applyFilter (applyFilter [sampleRow] ⟨0, 7, ["A"], [], []⟩)
        ⟨0, 5, ["A", "B"], [], []⟩
      = applyFilter [sampleRow]
          (combineSelections ⟨0, 7, ["A"], [], []⟩ ⟨0, 5, ["A", "B"], [], []⟩) :=
  c7_filters_compose _ _ _ (fun _ _ => by decide) (fun h _ => absurd rfl h)
    (fun h _ => absurd rfl h)

theorem contains_of_mem {l : List String} {c : String} (h : c ∈ l) :
    l.contains c = true := by
  rw [List.contains_iff_exists_mem_beq]
  exact ⟨c, h, by simp⟩

theorem coerceNumericsOn_fullSchema (r : Row) :
    coerceNumericsOn fullSchemaCols r = coerceNumerics r := by
  simp [coerceNumericsOn, coerceNumerics,
    show "net_amount" ∈ fullSchemaCols by decide,
    show "coupondiscount" ∈ fullSchemaCols by decide,
    show "donationamount" ∈ fullSchemaCols by decide,
    show "ADD_ON_STORE" ∈ fullSchemaCols by decide]

theorem allNoneOn_fullSchema (r : Row) :
    allNoneOn fullSchemaCols r = allNone r := by
  simp only [allNoneOn, fullSchemaCols, List.all_cons, List.all_nil,
    cellIsNone, allNone]
  simp only [String.reduceEq, if_true, if_false, reduceIte, Bool.and_true]
  generalize r.rid.isNone = b1
  generalize r.name.isNone = b2
  generalize r.plan.isNone = b3
  generalize r.exam_2.isNone = b4
  generalize r.order_type.isNone = b5
  generalize r.leader_fin.isNone = b6
  generalize r.converteddate.isNone = b7
  generalize r.startdate.isNone = b8
  generalize r.net_amount.isNone = b9
  generalize r.coupondiscount.isNone = b10
  generalize r.donationamount.isNone = b11
  generalize r.add_on_store.isNone = b12
  revert b1 b2 b3 b4 b5 b6 b7 b8 b9 b10 b11 b12
  decide

theorem normalizeWithCols_fullSchema (rows : List Row) :
    normalizeWithCols fullSchemaCols rows = normalize rows := by
  rw [normalizeWithCols, normalize,
    if_pos (show fullSchemaCols.contains "converteddate" = true from rfl)]
  have h1 : rows.map (coerceNumericsOn fullSchemaCols) = rows.map coerceNumerics :=
    List.map_congr_left (fun r _ => coerceNumericsOn_fullSchema r)
  rw [h1]
  have h2 : ∀ r ∈ rows.map coerceNumerics,
      (!(allNoneOn fullSchemaCols r)) = (!(allNone r)) :=
    fun r _ => by rw [allNoneOn_fullSchema]
  rw [List.filter_congr h2]

theorem load_data_from_sheets_cols_fullSchema (st : CacheState) (now : Int)
    (force : Bool) (fs : List Frame) (h : concatCols fs = fullSchemaCols) :
    load_data_from_sheets_cols st now force (.sheets fs)
      = load_data_from_sheets st now force (.sheets (fs.map Frame.rows)) := by
  by_cases hhit : cacheHit st now force
  · simp [load_data_from_sheets_cols, load_data_from_sheets, hhit]
  · cases fs with
    | nil => simp [load_data_from_sheets_cols, load_data_from_sheets, hhit]
    | cons f fs2 =>
      simp only [load_data_from_sheets_cols, load_data_from_sheets, hhit,
        Bool.false_eq_true, if_false, List.isEmpty_cons, List.map_cons,
        List.flatten_cons, h, normalizeWithCols_fullSchema]

theorem mem_normalizeWithCols {cols : List String} {rows : List Row} {r : Row}
    (h : r ∈ normalizeWithCols cols rows) :
    (∃ p ∈ rows, r = coerceNumericsOn cols p)
    ∧ ("converteddate" ∈ cols → r.converteddate.isSome = true) := by
  simp only [normalizeWithCols] at h
  by_cases hc : cols.contains "converteddate"
  · rw [if_pos hc, List.mem_filter, List.mem_filter, List.mem_map] at h
    obtain ⟨⟨⟨p, hp, hpr⟩, -⟩, hdate⟩ := h
    subst hpr
    exact ⟨⟨p, hp, rfl⟩, fun _ => hdate⟩
  · rw [if_neg hc, List.mem_filter, List.mem_map] at h
    obtain ⟨⟨p, hp, hpr⟩, -⟩ := h
    subst hpr
    exact ⟨⟨p, hp, rfl⟩,
      fun hmem => absurd (contains_of_mem hmem) (by simpa using hc)⟩

theorem normalizeWithCols_invariant {cols : List String} {rows : List Row}
    {r : Row} (h : r ∈ normalizeWithCols cols rows) :
    ("converteddate" ∈ cols → r.converteddate.isSome = true)
    ∧ ("net_amount" ∈ cols → r.net_amount.isSome = true)
    ∧ ("coupondiscount" ∈ cols → r.coupondiscount.isSome = true)
    ∧ ("donationamount" ∈ cols → r.donationamount.isSome = true)
    ∧ ("ADD_ON_STORE" ∈ cols → r.add_on_store.isSome = true)
    ∧ ∃ p ∈ rows, r = coerceNumericsOn cols p := by
  obtain ⟨⟨p, hp, hpr⟩, hdate⟩ := mem_normalizeWithCols h
  subst hpr
  refine ⟨hdate, ?_, ?_, ?_, ?_, p, hp, rfl⟩
  · intro hm
    simp [coerceNumericsOn, hm]
  · intro hm
    simp [coerceNumericsOn, hm]
  · intro hm
    simp [coerceNumericsOn, hm]
  · intro hm
    simp [coerceNumericsOn, hm]

/-- C8 counterexample: a load in which the only sheet that loaded carried
just a `name` column — no `converteddate` and no numeric columns (its
header row matched on the `name` keyword alone).  The guard of source line
159 is then false, so the date-less row is kept, the result is non-empty,
and lines 175-177 cache it: the cached table's one record has a null
converted date and null numeric fields, refuting the claimed invariant. -/
theorem c8_counterexample :
    load_data_from_sheets_cols ⟨none, none⟩ 0 false
        (.sheets [⟨["name"], [{ name := some "A" }]⟩])
      = (⟨some [{ name := some "A" }], some 0⟩, [{ name := some "A" }], true)
    ∧ ({ name := some "A" } : Row).converteddate = none
    ∧ ({ name := some "A" } : Row).net_amount = none :=
  ⟨rfl, rfl, rfl⟩

/-- C8 (amended): the invariant holds column-guarded.  When the
concatenated table has the `converteddate` column, every row surviving
normalization has a non-null converted date; for each designated numeric
column the table has, that field is non-null, with a missing or unparsable
value coerced to 0; every table the loader caches (which is also the table
it returns) satisfies the guarded invariant with respect to the
concatenated column set; and on a table carrying the full schema — the
case `load_data_from_sheets` embeds — the original unconditional invariant
holds. -/
theorem c8_guarded_invariant :
    (∀ (cols : List String) (rows : List Row) (r : Row),
      r ∈ normalizeWithCols cols rows →
      ("converteddate" ∈ cols → r.converteddate.isSome = true)
      ∧ ("net_amount" ∈ cols → r.net_amount.isSome = true)
      ∧ ("coupondiscount" ∈ cols → r.coupondiscount.isSome = true)
      ∧ ("donationamount" ∈ cols → r.donationamount.isSome = true)
      ∧ ("ADD_ON_STORE" ∈ cols → r.add_on_store.isSome = true)
      ∧ ∃ p ∈ rows, r = coerceNumericsOn cols p)
    ∧ (∀ (cols : List String) (p : Row), "net_amount" ∈ cols →
        p.net_amount = none → (coerceNumericsOn cols p).net_amount = some 0)
    ∧ (∀ (cols : List String) (p : Row), "coupondiscount" ∈ cols →
        p.coupondiscount = none →
        (coerceNumericsOn cols p).coupondiscount = some 0)
    ∧ (∀ (cols : List String) (p : Row), "donationamount" ∈ cols →
        p.donationamount = none →
        (coerceNumericsOn cols p).donationamount = some 0)
    ∧ (∀ (cols : List String) (p : Row), "ADD_ON_STORE" ∈ cols →
        p.add_on_store = none → (coerceNumericsOn cols p).add_on_store = some 0)
    ∧ (∀ (st : CacheState) (now : Int) (force : Bool) (fs : List Frame)
        (st' : CacheState) (T : Table) (f : Bool),
      load_data_from_sheets_cols st now force (.sheets fs) = (st', T, f) →
      st' ≠ st →
      st'.dataCache = some T ∧ ∀ r ∈ T,
        ("converteddate" ∈ concatCols fs → r.converteddate.isSome = true)
        ∧ ("net_amount" ∈ concatCols fs → r.net_amount.isSome = true)
        ∧ ("coupondiscount" ∈ concatCols fs →
            r.coupondiscount.isSome = true)
        ∧ ("donationamount" ∈ concatCols fs →
            r.donationamount.isSome = true)
        ∧ ("ADD_ON_STORE" ∈ concatCols fs → r.add_on_store.isSome = true))
    ∧ (∀ (rows : List Row) (r : Row),
      r ∈ normalizeWithCols fullSchemaCols rows →
      r.converteddate.isSome = true ∧ r.net_amount.isSome = true
      ∧ r.coupondiscount.isSome = true ∧ r.donationamount.isSome = true
      ∧ r.add_on_store.isSome = true) := by
  refine ⟨fun cols rows r h => normalizeWithCols_invariant h,
    fun cols p hm h0 => by simp [coerceNumericsOn, hm, h0],
    fun cols p hm h0 => by simp [coerceNumericsOn, hm, h0],
    fun cols p hm h0 => by simp [coerceNumericsOn, hm, h0],
    fun cols p hm h0 => by simp [coerceNumericsOn, hm, h0],
    ?_, ?_⟩
  · intro st now force fs st' T f hload hne
    by_cases hhit : cacheHit st now force
    · have heq : (load_data_from_sheets_cols st now force (.sheets fs)).1 = st := by
        simp [load_data_from_sheets_cols, hhit]
      rw [hload] at heq
      exact absurd heq hne
    · by_cases hfs : fs.isEmpty
      · have heq : (load_data_from_sheets_cols st now force (.sheets fs)).1 = st := by
          simp [load_data_from_sheets_cols, hhit, hfs]
        rw [hload] at heq
        exact absurd heq hne
      · by_cases hnorm :
            (normalizeWithCols (concatCols fs) (fs.map Frame.rows).flatten).isEmpty
        · have heq : (load_data_from_sheets_cols st now force (.sheets fs)).1 = st := by
            simp [load_data_from_sheets_cols, hhit, hfs, hnorm]
          rw [hload] at heq
          exact absurd heq hne
        · have heq : load_data_from_sheets_cols st now force (.sheets fs)
              = ({ dataCache :=
                     some (normalizeWithCols (concatCols fs)
                       (fs.map Frame.rows).flatten),
                   cacheTimestamp := some now },
                 normalizeWithCols (concatCols fs) (fs.map Frame.rows).flatten,
                 true) := by
            simp [load_data_from_sheets_cols, hhit, hfs, hnorm]
          rw [hload] at heq
          simp only [Prod.mk.injEq] at heq
          obtain ⟨hst', hT, -⟩ := heq
          subst hst'
          subst hT
          refine ⟨rfl, fun r hr => ?_⟩
          obtain ⟨h1, h2, h3, h4, h5, -⟩ := normalizeWithCols_invariant hr
          exact ⟨h1, h2, h3, h4, h5⟩
  · intro rows r h
    obtain ⟨h1, h2, h3, h4, h5, -⟩ := normalizeWithCols_invariant h
    exact ⟨h1 (by decide), h2 (by decide), h3 (by decide), h4 (by decide),
      h5 (by decide)⟩

/-- A sample raw (pre-coercion) row: date parsed, numerics all missing. -/
def samplePreRow : Row := { converteddate := some 3, name := some "A" }

/-- C8 witness: the guarded invariant at a concrete one-row table that
carries the full schema, with all numeric fields missing and the date
parsed. -/
theorem c8_guarded_invariant_witness :
    coerceNumericsOn fullSchemaCols samplePreRow
      ∈ normalizeWithCols fullSchemaCols [samplePreRow]
    ∧ (coerceNumericsOn fullSchemaCols samplePreRow).converteddate.isSome = true
    ∧ (coerceNumericsOn fullSchemaCols samplePreRow).net_amount.isSome = true := by
  refine ⟨by decide, ?_, ?_⟩
  · exact (c8_guarded_invariant.1 fullSchemaCols [samplePreRow]
      (coerceNumericsOn fullSchemaCols samplePreRow) (by decide)).1 (by decide)
  · exact (c8_guarded_invariant.1 fullSchemaCols [samplePreRow]
      (coerceNumericsOn fullSchemaCols samplePreRow) (by decide)).2.1 (by decide)

theorem countP_name_eq_count (T : Table) (n : String) :
    T.countP (fun r => decide (r.name = some n))
      = (T.filterMap Row.name).count n := by
  induction T with
  | nil => rfl
  | cons r T ih =>
    cases hn : r.name with
    | none => simp [List.countP_cons, List.filterMap_cons, hn, ih]
    | some m =>
      rw [List.countP_cons, List.filterMap_cons, hn, List.count_cons]
      by_cases hm : m = n <;> simp [hm, ih]

theorem countP_isSome_name (T : Table) :
    T.countP (fun r => r.name.isSome) = (T.filterMap Row.name).length := by
  induction T with
  | nil => rfl
  | cons r T ih =>
    cases hn : r.name <;> simp [List.countP_cons, List.filterMap_cons, hn, ih]

/-- C4 counterexample: a non-empty two-row filtered table with one NaN
batch name. `groupby('name')` drops the NaN key, so the totals row counts
1 enrollment while the table has 2 rows. -/
theorem c4_counterexample :
    (batchSummaryTotals [sampleRow, sampleRowNoName]).totalEnrollments
      ≠ ([sampleRow, sampleRowNoName] : Table).length
    ∧ ([sampleRow, sampleRowNoName] : Table) ≠ [] := by
  decide

/-- C4 (amended): the totals row of the batch summary carries the fixed
label `TOTAL` in the identifying column, blanks in the non-summable
columns, and a count equal to the number of rows with a non-null batch
name — which is `len(T)` exactly when every row of T has a batch name. -/
theorem c4_totals_row (T : Table) :
    (batchSummaryTotals T).batchName = "TOTAL"
    ∧ (batchSummaryTotals T).examCategory = ""
    ∧ (batchSummaryTotals T).leader = ""
    ∧ (batchSummaryTotals T).totalEnrollments
        = T.countP (fun r => r.name.isSome)
    ∧ ((∀ r ∈ T, r.name.isSome = true) →
        (batchSummaryTotals T).totalEnrollments = T.length) := by
  have key : (batchSummaryTotals T).totalEnrollments
      = T.countP (fun r => r.name.isSome) := by
    show ((batchSummaryRows T).map (fun s => s.totalEnrollments)).sum = _
    have hperm : List.Perm (batchSummaryRows T)
        ((batchKeys T).map (summaryRowFor T)) :=
      List.perm_insertionSort _ _
    rw [(hperm.map (fun s => s.totalEnrollments)).sum_eq, List.map_map]
    have : ((fun s => s.totalEnrollments) ∘ summaryRowFor T)
        = fun n => (T.filterMap Row.name).count n := by
      funext n
      exact countP_name_eq_count T n
    rw [this]
    rw [show batchKeys T = (T.filterMap Row.name).dedup from rfl]
    rw [List.sum_map_count_dedup_eq_length, countP_isSome_name]
  refine ⟨rfl, rfl, rfl, key, fun h => ?_⟩
  rw [key, List.countP_eq_length.2 h]

/-- C4 witness: the amended statement at a concrete fully-named table. -/
theorem c4_totals_row_witness :
    (∀ r ∈ ([sampleRow] : Table), r.name.isSome = true)
    ∧ (batchSummaryTotals [sampleRow]).totalEnrollments
        = ([sampleRow] : Table).length :=
  ⟨by decide, (c4_totals_row [sampleRow]).2.2.2.2 (by decide)⟩

theorem countP_last7_eq (T : Table) (E d : Int) (hd : E - 7 ≤ d) :
    (last7 T E).countP (fun r => decide (r.converteddate = some d))
      = T.countP (fun r => decide (r.converteddate = some d)) := by
  unfold last7
  rw [List.countP_filter]
  apply List.countP_congr
  intro r _
  cases hcd : r.converteddate with
  | none => simp [hcd]
  | some e =>
    by_cases h : e = d
    · subst h
      simp [hcd, hd]
    · simp [hcd, h]

theorem mem_sortedDates (T : Table) (d : Int) :
    d ∈ sortedDates T ↔ ∃ r ∈ T, r.converteddate = some d := by
  unfold sortedDates
  rw [(List.perm_insertionSort _ _).mem_iff, List.mem_dedup, List.mem_filterMap]

theorem sortedDates_sorted (T : Table) :
    List.Sorted (· < ·) (sortedDates T) := by
  refine List.Sorted.lt_of_le (List.sorted_insertionSort _ _) ?_
  exact ((List.perm_insertionSort _ _).nodup_iff).2 (List.nodup_dedup _)

/-- C5: over a filtered table whose dates are all bounded by the selection's
end-of-range `E`, the recent-window trend contains the pair `(d, c)` exactly
when `d` lies in the inclusive 7-day window ending at `E`, `c` is the number
of rows dated `d`, and that count is positive (dates with zero rows are
absent); and the trend's dates are strictly ascending. -/
theorem c5_recent_window_trend (T : Table) (E : Int)
    (hub : ∀ r ∈ T, ∀ d, r.converteddate = some d → d ≤ E) :
    (∀ (d : Int) (c : Nat), (d, c) ∈ last7Trend T E ↔
      (E - 7 ≤ d ∧ d ≤ E ∧ 0 < c ∧
        c = T.countP (fun r => decide (r.converteddate = some d))))
    ∧ List.Sorted (· < ·) ((last7Trend T E).map Prod.fst) := by
  constructor
  · intro d c
    constructor
    · intro hmem
      rw [last7Trend, List.mem_map] at hmem
      obtain ⟨k, hk, hkeq⟩ := hmem
      simp only [Prod.mk.injEq] at hkeq
      obtain ⟨rfl, rfl⟩ := hkeq
      obtain ⟨r, hrL, hrd⟩ := (mem_sortedDates _ k).1 hk
      have hrT : r ∈ T := List.mem_of_mem_filter hrL
      have hwin : E - 7 ≤ k := by
        have := (List.mem_filter.1 hrL).2
        rw [hrd] at this
        simpa using this
      refine ⟨hwin, hub r hrT k hrd, ?_, (countP_last7_eq T E k hwin)⟩
      rw [List.countP_pos_iff]
      exact ⟨r, hrL, by simp [hrd]⟩
    · rintro ⟨h1, h2, h3, hc⟩
      have hpos : 0 < T.countP (fun r => decide (r.converteddate = some d)) :=
        hc ▸ h3
      obtain ⟨r, hrT, hrp⟩ := List.countP_pos_iff.1 hpos
      have hrd : r.converteddate = some d := by simpa using hrp
      have hrL : r ∈ last7 T E := by
        rw [last7, List.mem_filter]
        exact ⟨hrT, by simp [hrd, h1]⟩
      rw [last7Trend, List.mem_map]
      refine ⟨d, (mem_sortedDates _ d).2 ⟨r, hrL, hrd⟩, ?_⟩
      rw [countP_last7_eq T E d h1, ← hc]
  · have hkeys : (last7Trend T E).map Prod.fst = sortedDates (last7 T E) := by
      rw [last7Trend, List.map_map]
      exact List.map_id _
    rw [hkeys]
    exact sortedDates_sorted _

/-- C5 witness: the window membership and sortedness at a concrete one-row
table dated exactly at the end-of-range bound. -/
theorem c5_recent_window_trend_witness :
    ((0 : Int), (1 : Nat)) ∈ last7Trend [sampleRow] 0
    ∧ List.Sorted (· < ·) ((last7Trend [sampleRow] 0).map Prod.fst) := by
  have h := c5_recent_window_trend [sampleRow] 0 (by
    intro r hr d hd
    rw [List.mem_singleton] at hr
    subst hr
    have h0 : some (0 : Int) = some d := hd
    have h1 : (0 : Int) = d := Option.some.inj h0
    omega)
  exact ⟨(h.1 0 1).2 ⟨by decide, by decide, by decide, by decide⟩, h.2⟩

theorem sum_map_div (l : List Rat) (c : Rat) :
    (l.map (fun x => x / c)).sum = l.sum / c := by
  induction l with
  | nil => simp
  | cons a l ih => rw [List.map_cons, List.sum_cons, List.sum_cons, ih,
      div_add_div_same]

/-- C9: every monetary aggregate displays exactly the raw summed value
divided by 10,000,000 — the total-revenue metric, each point of the revenue
trend, each bar of revenue-by-exam (through the sort and top-10
truncation), each batch-summary row, and the batch-summary totals cell. -/
theorem c9_crore_scaling :
    (∀ T : Table, total_revenue_cr T = total_revenue T / 10000000)
    ∧ (∀ (T : Table) (E : Int) (p : Int × Rat), p ∈ revenueTrendCr T E →
        p.2 = revenueOnDate (last7 T E) p.1 / 10000000)
    ∧ (∀ (T : Table) (p : String × Rat), p ∈ revenueByExamCr T →
        p.2 = revenueOfExam T p.1 / 10000000)
    ∧ (∀ (T : Table) (s : SummaryRow), s ∈ batchSummaryRows T →
        s.totalRevenueCr = revenueOfBatch T s.batchName / 10000000)
    ∧ (∀ T : Table, (batchSummaryTotals T).totalRevenueCr
        = ((batchKeys T).map (fun n => revenueOfBatch T n)).sum / 10000000) := by
  refine ⟨fun T => rfl, ?_, ?_, ?_, ?_⟩
  · intro T E p hp
    rw [revenueTrendCr, List.mem_map] at hp
    obtain ⟨k, -, rfl⟩ := hp
    rfl
  · intro T p hp
    rw [revenueByExamCr, List.mem_map] at hp
    obtain ⟨q, hq, rfl⟩ := hp
    have hq' : q ∈ ((T.filterMap Row.exam_2).dedup).map
        (fun e => (e, revenueOfExam T e)) :=
      (List.perm_insertionSort _ _).mem_iff.1 (List.take_subset _ _ hq)
    rw [List.mem_map] at hq'
    obtain ⟨e, -, rfl⟩ := hq'
    rfl
  · intro T s hs
    have hs' : s ∈ (batchKeys T).map (summaryRowFor T) :=
      (List.perm_insertionSort _ _).mem_iff.1 hs
    rw [List.mem_map] at hs'
    obtain ⟨n, -, rfl⟩ := hs'
    rfl
  · intro T
    show ((batchSummaryRows T).map (fun s => s.totalRevenueCr)).sum = _
    have hperm : List.Perm (batchSummaryRows T)
        ((batchKeys T).map (summaryRowFor T)) :=
      List.perm_insertionSort _ _
    rw [(hperm.map (fun s => s.totalRevenueCr)).sum_eq, List.map_map]
    have : ((fun s => s.totalRevenueCr) ∘ summaryRowFor T)
        = fun n => revenueOfBatch T n / 10000000 := rfl
    rw [this, ← sum_map_div, List.map_map]
    rfl

/-- C9 witness: the revenue-trend scaling at a concrete one-row table. -/
theorem c9_crore_scaling_witness :
    ((0 : Int), revenueOnDate (last7 [sampleRow] 0) 0 / 10000000)
        ∈ revenueTrendCr [sampleRow] 0
    ∧ ((0 : Int), revenueOnDate (last7 [sampleRow] 0) 0 / 10000000).2
        = revenueOnDate (last7 [sampleRow] 0)
            ((0 : Int), revenueOnDate (last7 [sampleRow] 0) 0 / 10000000).1
          / 10000000 := by
  have hmem : ((0 : Int), revenueOnDate (last7 [sampleRow] 0) 0 / 10000000)
      ∈ revenueTrendCr [sampleRow] 0 := by
    show _ ∈ [((0 : Int), revenueOnDate (last7 [sampleRow] 0) 0 / 10000000)]
    exact List.mem_singleton.2 rfl
  exact ⟨hmem, c9_crore_scaling.2.1 [sampleRow] 0 _ hmem⟩

theorem findFirstMatch_eq_some {data : List (List String)} {i : Nat}
    {row : List String} (hget : data[i]? = some row)
    (hrow : rowHasKeyword row = true)
    (habove : ∀ rj ∈ data.take i, rowHasKeyword rj = false) :
    findFirstMatch data = some i := by
  induction data generalizing i with
  | nil => simp at hget
  | cons a rest ih =>
    cases i with
    | zero =>
      rw [List.getElem?_cons_zero] at hget
      obtain rfl := Option.some.inj hget
      rw [findFirstMatch, if_pos hrow]
    | succ i =>
      have ha : rowHasKeyword a = false :=
        habove a (by rw [List.take_succ_cons]; exact List.mem_cons_self a _)
      rw [findFirstMatch, if_neg (by simp [ha])]
      rw [ih (by simpa using hget) (fun rj hrj => habove rj
        (by rw [List.take_succ_cons]; exact List.mem_cons_of_mem a hrj))]
      rfl

theorem findFirstMatch_eq_none {data : List (List String)}
    (h : ∀ r ∈ data, rowHasKeyword r = false) :
    findFirstMatch data = none := by
  induction data with
  | nil => rfl
  | cons a rest ih =>
    rw [findFirstMatch, if_neg (by simp [h a (List.mem_cons_self a rest)])]
    rw [ih (fun r hr => h r (List.mem_cons_of_mem a hr))]
    rfl

/-- C3: the scan picks as header the first row (top to bottom) passing the
keyword test of source line 91 — every row above it fails the test — the
chosen row becomes the header, the rows below it become the data rows (all
rows above are discarded), and when no row passes the test row 0 is used as
the header. -/
theorem c3_header_row_detection :
    (∀ (data : List (List String)) (i : Nat) (row : List String),
      data[i]? = some row → rowHasKeyword row = true →
      (∀ rj ∈ data.take i, rowHasKeyword rj = false) →
      findHeaderRow data = i ∧ sheetHeader data = some row
        ∧ sheetDataRows data = data.drop (i + 1))
    ∧ (∀ data : List (List String), (∀ r ∈ data, rowHasKeyword r = false) →
      findHeaderRow data = 0 ∧ sheetHeader data = data[0]?
        ∧ sheetDataRows data = data.drop 1) := by
  constructor
  · intro data i row hget hrow habove
    have hf : findHeaderRow data = i := by
      rw [findHeaderRow, findFirstMatch_eq_some hget hrow habove]
      rfl
    refine ⟨hf, ?_, ?_⟩
    · rw [sheetHeader, hf, hget]
    · rw [sheetDataRows, hf]
  · intro data h
    have hf : findHeaderRow data = 0 := by
      rw [findHeaderRow, findFirstMatch_eq_none h]
      rfl
    exact ⟨hf, by rw [sheetHeader, hf], by rw [sheetDataRows, hf]⟩

/-- C3 witness: a concrete sheet with a metadata row above the header; the
scan skips the metadata row, picks the row containing the keyword `_id`,
and the rows below it become the data rows. -/
theorem c3_header_row_detection_witness :
    findHeaderRow [["Report"], ["_id", "name"], ["1", "A"]] = 1
    ∧ sheetHeader [["Report"], ["_id", "name"], ["1", "A"]]
        = some ["_id", "name"]
    ∧ sheetDataRows [["Report"], ["_id", "name"], ["1", "A"]] = [["1", "A"]] := by
  have h := c3_header_row_detection.1 [["Report"], ["_id", "name"], ["1", "A"]]
    1 ["_id", "name"] (by decide) (by decide) (by decide)
  exact ⟨h.1, h.2.1, h.2.2.trans rfl⟩

end Dashboard
